import Mathlib

/-!
Verification of the resilient acquisition and validation layer of the
ontario-environmental-data repository.

The definitions below are a shallow embedding of:
- src/ontario_data/sources/base.py  (BaseClient: rate limiting, retry loop)
- src/ontario_data/validation.py    (format validators)
- src/check_data_status.py          (status aggregation and run verdict)

Timestamps and delays are modelled as rationals.  The Python floats involved
(base_delay, 60.0 / rate_limit, the 0.1 geometry threshold) only enter the
claims through comparisons that coincide with exact rational arithmetic on
the integer inputs concerned; this is noted where it matters.
-/

/-! ## Rate limiter (BaseClient.__init__ and BaseClient._rate_limit_wait) -/

/-- Per-client mutable state: the configured requests-per-minute ceiling and
the last-request timestamp, in seconds.  Mirrors the fields set in
BaseClient.__init__. -/
structure ClientState where
  rateLimit : ℚ
  lastRequest : ℚ
deriving Repr, DecidableEq

/-- BaseClient.__init__: the constructor stores rate_limit and sets
last_request to datetime.now(), i.e. to the construction time. -/
def initClient (rateLimit : ℚ) (constructionTime : ℚ) : ClientState :=
  { rateLimit := rateLimit, lastRequest := constructionTime }

/-- The wait performed by _rate_limit_wait when invoked at time now:
time_since_last = now - last_request; min_interval = 60.0 / rate_limit;
if time_since_last < min_interval the coroutine sleeps for the remainder,
otherwise it does not sleep. -/
def rateLimitWaitTime (c : ClientState) (now : ℚ) : ℚ :=
  let timeSinceLast := now - c.lastRequest
  let minInterval := 60 / c.rateLimit
  if timeSinceLast < minInterval then minInterval - timeSinceLast else 0

/-- _rate_limit_wait also updates last_request to datetime.now() after the
optional sleep; with an idealised sleep that is now plus the wait time. -/
def rateLimitStep (c : ClientState) (now : ℚ) : ℚ × ClientState :=
  let w := rateLimitWaitTime c now
  (w, { c with lastRequest := now + w })

/-! ## Retry loop (BaseClient._retry_request) -/

/-- What the i-th issued request attempt observes: either an HTTP response
(status, optional Retry-After header value, body text) or a network-level
aiohttp.ClientError. -/
inductive AttemptEvent where
  | response (status : Nat) (retryAfter : Option String) (body : String)
  | clientError (msg : String)
deriving Repr, DecidableEq

/-- Suspension actions performed by the retry loop, in order: the rate-limit
wait preceding each attempt, and the sleeps (backoff or Retry-After). -/
inductive ReqAction where
  | rateLimitWait
  | sleep (seconds : ℚ)
deriving Repr, DecidableEq

/-- Caller-observable outcome of _retry_request: a returned response, a
raised DataSourceError, or an uncaught ValueError escaping from
int(...) applied to a malformed Retry-After header (only
aiohttp.ClientError is caught by the loop). -/
inductive ReqOutcome where
  | success (status : Nat) (body : String)
  | dsError (msg : String)
  | valueError (msg : String)
deriving Repr, DecidableEq

/-- Whitespace characters removed by Python int() around the literal. -/
def isSpaceChar (c : Char) : Bool :=
  c = ' ' || c = '\t' || c = '\n' || c = '\r'

/-- Both-ends whitespace strip of a string, as a character list. -/
def stripChars (s : String) : List Char :=
  ((s.toList.dropWhile isSpaceChar).reverse.dropWhile isSpaceChar).reverse

/-- Model of Python int(s): optional surrounding whitespace, an optional
sign, then at least one decimal digit; anything else raises ValueError
(modelled as none).  Digit-group underscores are not modelled; no claim
depends on them. -/
def pyParseInt (s : String) : Option Int :=
  match stripChars s with
  | [] => none
  | c :: rest =>
    let (neg, digits) :=
      if c = '-' then (true, rest)
      else if c = '+' then (false, rest)
      else (false, c :: rest)
    if digits.isEmpty || !digits.all Char.isDigit then none
    else
      let n : Nat := digits.foldl (fun acc d => 10 * acc + (d.toNat - 48)) 0
      some (if neg then -(n : Int) else (n : Int))

/-- int(response.headers.get("Retry-After", 60)): when the header is absent
the Python default is the integer 60; when present, the string is parsed
and a malformed value raises ValueError (none). -/
def retryAfterValue : Option String → Option Int
  | none => some 60
  | some s => pyParseInt s

/-- The body of the loop "for attempt in range(max_retries)" in
_retry_request, driven by the event each attempt observes.  remaining
counts the loop iterations still allowed, so the current Python loop index
is attempt = maxRetries - remaining when called with remaining ≤ maxRetries
(retryRequest always does).  acc collects the performed suspensions in
reverse order. -/
def retryLoop (maxRetries : Nat) (baseDelay : ℚ) (events : Nat → AttemptEvent) :
    Nat → List ReqAction → ReqOutcome × List ReqAction
  | 0, acc =>
    (.dsError ("Request failed after " ++ toString maxRetries ++ " attempts"),
     acc.reverse)
  | remaining + 1, acc =>
    let attempt := maxRetries - (remaining + 1)
    let acc1 := ReqAction.rateLimitWait :: acc
    match events attempt with
    | .response status retryAfter body =>
      if status = 200 then
        (.success status body, acc1.reverse)
      else if status = 429 then
        match retryAfterValue retryAfter with
        | none =>
          (.valueError ("invalid literal for int() with base 10: " ++
              (retryAfter.getD "")), acc1.reverse)
        | some ra =>
          retryLoop maxRetries baseDelay events remaining
            (ReqAction.sleep (ra : ℚ) :: acc1)
      else if 500 ≤ status then
        retryLoop maxRetries baseDelay events remaining
          (ReqAction.sleep (baseDelay * 2 ^ attempt) :: acc1)
      else
        (.dsError ("HTTP " ++ toString status ++ ": " ++ body), acc1.reverse)
    | .clientError msg =>
      if remaining = 0 then
        (.dsError ("Request failed after " ++ toString maxRetries ++
            " attempts: " ++ msg), acc1.reverse)
      else
        retryLoop maxRetries baseDelay events remaining
          (ReqAction.sleep (baseDelay * 2 ^ attempt) :: acc1)

/-- BaseClient._retry_request with max_retries = maxRetries and
base_delay = baseDelay, on a run whose i-th attempt observes events i.
Returns the outcome together with the ordered list of suspensions. -/
def retryRequest (maxRetries : Nat) (baseDelay : ℚ) (events : Nat → AttemptEvent) :
    ReqOutcome × List ReqAction :=
  retryLoop maxRetries baseDelay events maxRetries []


/-! ## Claims about the rate limiter and retry loop -/

/-- C1 counterexample: with rateLimitRPM = 60, a client constructed at time 0
whose first _rate_limit_wait call happens immediately (also at time 0) waits
a full 60/60 = 1 second, because __init__ initialises last_request to the
construction time rather than to a sentinel in the distant past.  So the
first call on a fresh instance does not return with zero delay. -/
theorem c1_counterexample :
    rateLimitWaitTime (initClient 60 0) 0 = 1 ∧
    ¬ rateLimitWaitTime (initClient 60 0) 0 = 0 := by
  constructor <;> norm_num [rateLimitWaitTime, initClient]

/-- C1 amended: for every positive rateLimitRPM, the first call on a fresh
client waits exactly max 0 (60/rpm - elapsed), where elapsed is the time
since construction; in particular it returns with zero delay if and only if
at least 60/rpm seconds have passed since construction (not "regardless of
how soon it is invoked"). -/
theorem c1_first_call_wait (rpm t0 now : ℚ) (hrpm : 0 < rpm) (h : t0 ≤ now) :
    rateLimitWaitTime (initClient rpm t0) now = max 0 (60 / rpm - (now - t0)) ∧
    (rateLimitWaitTime (initClient rpm t0) now = 0 ↔ 60 / rpm ≤ now - t0) := by
  have _ := hrpm
  have _ := h
  unfold rateLimitWaitTime initClient
  simp only
  split
  · rename_i hlt
    refine ⟨by rw [max_eq_right (by linarith)], ?_, ?_⟩
    · intro h0
      linarith
    · intro hle
      linarith
  · rename_i hge
    push_neg at hge
    refine ⟨by rw [max_eq_left (by linarith)], ?_⟩
    simp only [true_iff]
    linarith

/-- Witness for c1_first_call_wait at rpm = 60, construction time 0, first
call at time 1/2: the wait is max 0 (1 - 1/2) = 1/2 and is nonzero since
only half the interval elapsed. -/
theorem c1_first_call_wait_witness :
    rateLimitWaitTime (initClient 60 0) (1/2) = max 0 ((60 : ℚ) / 60 - (1/2 - 0)) ∧
    (rateLimitWaitTime (initClient 60 0) (1/2) = 0 ↔ (60 : ℚ) / 60 ≤ 1/2 - 0) :=
  c1_first_call_wait 60 0 (1/2) (by norm_num) (by norm_num)

/-- An event that makes the loop body in _retry_request fall into a
continue branch after sleeping for d seconds, at loop index i: a response
whose status is 429 with a Retry-After value that parses to d, or a 5xx
response slept through with the exponential backoff base * 2 ^ i. -/
def retriesThenContinues (baseDelay : ℚ) (i : Nat) (e : AttemptEvent) (d : ℚ) : Prop :=
  ∃ status hdr body, e = .response status hdr body ∧ status ≠ 200 ∧
    ((status = 429 ∧ ∃ ra : Int, retryAfterValue hdr = some ra ∧ d = (ra : ℚ)) ∨
     (status ≠ 429 ∧ 500 ≤ status ∧ d = baseDelay * 2 ^ i))

/-- If every attempt the loop can make observes a continue-and-sleep event,
the loop exhausts all its iterations, raising the terminal DataSourceError
and producing one rate-limit wait plus one sleep per iteration. -/
theorem retryLoop_all_retry (maxRetries : Nat) (baseDelay : ℚ)
    (events : Nat → AttemptEvent) (d : Nat → ℚ)
    (h : ∀ i, i < maxRetries → retriesThenContinues baseDelay i (events i) (d i)) :
    ∀ remaining acc, remaining ≤ maxRetries →
      retryLoop maxRetries baseDelay events remaining acc =
        (.dsError ("Request failed after " ++ toString maxRetries ++ " attempts"),
         acc.reverse ++
           ((List.range remaining).map (fun j => maxRetries - remaining + j)).flatMap
             (fun i => [ReqAction.rateLimitWait, ReqAction.sleep (d i)])) := by
  intro remaining
  induction remaining with
  | zero =>
    intro acc _
    simp [retryLoop]
  | succ r ih =>
    intro acc hle
    have hatt : maxRetries - (r + 1) < maxRetries := by omega
    obtain ⟨status, hdr, body, hev, h200, hcase⟩ := h _ hatt
    have hrange :
        ((List.range (r + 1)).map (fun j => maxRetries - (r + 1) + j)).flatMap
            (fun i => [ReqAction.rateLimitWait, ReqAction.sleep (d i)]) =
          [ReqAction.rateLimitWait, ReqAction.sleep (d (maxRetries - (r + 1)))] ++
            ((List.range r).map (fun j => maxRetries - r + j)).flatMap
              (fun i => [ReqAction.rateLimitWait, ReqAction.sleep (d i)]) := by
      rw [List.range_succ_eq_map]
      simp only [List.map_cons, List.map_map, List.flatMap_cons, Nat.add_zero]
      have hcomp : ((fun j => maxRetries - (r + 1) + j) ∘ Nat.succ) =
          (fun j => maxRetries - r + j) := by
        funext j
        simp only [Function.comp_apply]
        omega
      rw [hcomp]
    rcases hcase with ⟨h429, ra, hra, hd⟩ | ⟨hn429, h500, hd⟩
    · subst h429
      have hstep : retryLoop maxRetries baseDelay events (r + 1) acc =
          retryLoop maxRetries baseDelay events r
            (ReqAction.sleep (ra : ℚ) :: ReqAction.rateLimitWait :: acc) := by
        simp only [retryLoop, hev, hra]
        norm_num
      rw [hstep, ih _ (by omega), hrange]
      simp [hd]
    · have hstep : retryLoop maxRetries baseDelay events (r + 1) acc =
          retryLoop maxRetries baseDelay events r
            (ReqAction.sleep (baseDelay * 2 ^ (maxRetries - (r + 1))) ::
              ReqAction.rateLimitWait :: acc) := by
        simp only [retryLoop, hev]
        rw [if_neg h200, if_neg hn429, if_pos h500]
      rw [hstep, ih _ (by omega), hrange]
      simp [hd]

/-- C2: with max_retries = N against attempts that all observe a 5xx status
(for instance always 503), _retry_request performs exactly N attempts, each
preceded by a rate-limit wait and followed by a backoff sleep of
base_delay * 2 ^ i for attempt index i, then raises
DataSourceError "Request failed after N attempts". -/
theorem c2_retry_exhaustion (maxRetries : Nat) (baseDelay : ℚ)
    (events : Nat → AttemptEvent)
    (st : Nat → Nat) (hdr : Nat → Option String) (body : Nat → String)
    (hev : ∀ i, i < maxRetries → events i = .response (st i) (hdr i) (body i))
    (hst : ∀ i, i < maxRetries → 500 ≤ st i) :
    retryRequest maxRetries baseDelay events =
      (.dsError ("Request failed after " ++ toString maxRetries ++ " attempts"),
       (List.range maxRetries).flatMap
         (fun i => [ReqAction.rateLimitWait, ReqAction.sleep (baseDelay * 2 ^ i)])) := by
  have h := retryLoop_all_retry maxRetries baseDelay events
    (fun i => baseDelay * 2 ^ i)
    (fun i hi => by
      refine ⟨st i, hdr i, body i, hev i hi, by have := hst i hi; omega, ?_⟩
      exact Or.inr ⟨by have := hst i hi; omega, hst i hi, rfl⟩)
    maxRetries [] le_rfl
  rw [retryRequest, h]
  simp only [Nat.sub_self, Nat.zero_add, List.reverse_nil, List.nil_append]
  have hid : (List.range maxRetries).map (fun j => j) = List.range maxRetries := by
    simp
  rw [hid]

/-- Witness for c2_retry_exhaustion: max_retries = 3, base_delay = 1, every
attempt answered with HTTP 503.  Exactly three rate-limit waits, backoff
sleeps of 1, 2 and 4 seconds, and the terminal DataSourceError. -/
theorem c2_retry_exhaustion_witness :
    retryRequest 3 1 (fun _ => .response 503 none "service unavailable") =
      (.dsError ("Request failed after " ++ toString 3 ++ " attempts"),
       (List.range 3).flatMap
         (fun i => [ReqAction.rateLimitWait, ReqAction.sleep (1 * 2 ^ i)])) :=
  c2_retry_exhaustion 3 1 _ (fun _ => 503) (fun _ => none)
    (fun _ => "service unavailable") (fun _ _ => rfl)
    (fun i _ => show (500 : Nat) ≤ 503 by decide)

/-- C3 counterexample: an attempt answered with HTTP 201 (a 2xx status that
is not exactly 200) is not returned as a success: the loop falls through to
the catch-all branch and raises DataSourceError "HTTP 201: ..." at once. -/
theorem c3_counterexample :
    retryRequest 3 1 (fun _ => .response 201 none "created") =
      (.dsError "HTTP 201: created", [ReqAction.rateLimitWait]) ∧
    (retryRequest 3 1 (fun _ => .response 201 none "created")).1 ≠
      ReqOutcome.success 201 "created" := by
  refine ⟨by decide, ?_⟩
  intro hcontra
  rw [show (retryRequest 3 1 (fun _ => .response 201 none "created")).1 =
      ReqOutcome.dsError "HTTP 201: created" from by decide] at hcontra
  exact ReqOutcome.noConfusion hcontra

/-- C3 amended: only a status equal to 200 exactly is returned immediately
as a success; every other 2xx status (201..299) hits the catch-all branch
and raises DataSourceError immediately, with no further retries in either
case.  Stated on the loop at an arbitrary iteration (the attempt index is
maxRetries - (r + 1)). -/
theorem c3_only_exact_200 (maxRetries : Nat) (baseDelay : ℚ)
    (events : Nat → AttemptEvent) (r : Nat) (acc : List ReqAction)
    (hdr : Option String) (body : String) (s : Nat) :
    (events (maxRetries - (r + 1)) = .response 200 hdr body →
      retryLoop maxRetries baseDelay events (r + 1) acc =
        (.success 200 body, (ReqAction.rateLimitWait :: acc).reverse)) ∧
    (events (maxRetries - (r + 1)) = .response s hdr body → 201 ≤ s → s ≤ 299 →
      retryLoop maxRetries baseDelay events (r + 1) acc =
        (.dsError ("HTTP " ++ toString s ++ ": " ++ body),
         (ReqAction.rateLimitWait :: acc).reverse)) := by
  constructor
  · intro hev
    simp only [retryLoop, hev]
    norm_num
  · intro hev h1 h2
    simp only [retryLoop, hev]
    rw [if_neg (by omega), if_neg (by omega), if_neg (by omega)]

/-- Witness for c3_only_exact_200: with three allowed attempts, a first
response of 200 is returned as success after a single rate-limit wait, and
a first response of 201 raises DataSourceError after a single wait. -/
theorem c3_only_exact_200_witness :
    retryRequest 3 1 (fun _ => .response 200 none "ok") =
      (.success 200 "ok", [ReqAction.rateLimitWait]) ∧
    retryRequest 3 1 (fun _ => .response 201 none "created") =
      (.dsError ("HTTP " ++ toString 201 ++ ": created"), [ReqAction.rateLimitWait]) := by
  constructor
  · exact (c3_only_exact_200 3 1 _ 2 [] none "ok" 201).1 rfl
  · exact (c3_only_exact_200 3 1 _ 2 [] none "created" 201).2 rfl (by decide) (by decide)

/-- C4 counterexample: with max_retries = 3 and every attempt answered with
HTTP 429 carrying Retry-After 2, each 429 sleeps 2 seconds and then
consumes a loop iteration, so after three 429 responses and zero real
(non-429) attempts the requester raises DataSourceError.  429 responses do
count toward exhausting max_retries. -/
theorem c4_counterexample :
    retryRequest 3 1 (fun _ => .response 429 (some "2") "slow down") =
      (.dsError "Request failed after 3 attempts",
       [ReqAction.rateLimitWait, ReqAction.sleep 2, ReqAction.rateLimitWait,
        ReqAction.sleep 2, ReqAction.rateLimitWait, ReqAction.sleep 2]) := by
  decide

/-- C4 amended: a 429 response makes the requester sleep for the parsed
Retry-After value (60 when the header is absent, since retryAfterValue
none = some 60) and then retry, but the retry consumes one of the
max_retries loop iterations: a run of nothing but 429 responses performs
one rate-limit wait and one Retry-After sleep per iteration and then
raises DataSourceError after max_retries attempts. -/
theorem c4_429_consumes_attempts (maxRetries : Nat) (baseDelay : ℚ)
    (events : Nat → AttemptEvent) (hdr : Nat → Option String)
    (body : Nat → String) (ra : Nat → Int)
    (hev : ∀ i, i < maxRetries → events i = .response 429 (hdr i) (body i))
    (hra : ∀ i, i < maxRetries → retryAfterValue (hdr i) = some (ra i)) :
    retryRequest maxRetries baseDelay events =
      (.dsError ("Request failed after " ++ toString maxRetries ++ " attempts"),
       (List.range maxRetries).flatMap
         (fun i => [ReqAction.rateLimitWait, ReqAction.sleep ((ra i : ℚ))])) := by
  have h := retryLoop_all_retry maxRetries baseDelay events (fun i => ((ra i : Int) : ℚ))
    (fun i hi => ⟨429, hdr i, body i, hev i hi, by decide,
      Or.inl ⟨rfl, ra i, hra i hi, rfl⟩⟩)
    maxRetries [] le_rfl
  rw [retryRequest, h]
  simp only [Nat.sub_self, Nat.zero_add, List.reverse_nil, List.nil_append]
  have hid : (List.range maxRetries).map (fun j => j) = List.range maxRetries := by
    simp
  rw [hid]

/-- Witness for c4_429_consumes_attempts: three 429 responses, each with
Retry-After 2, produce a wait and a 2-second sleep per attempt and the
terminal DataSourceError. -/
theorem c4_429_consumes_attempts_witness :
    retryRequest 3 1 (fun _ => .response 429 (some "2") "slow down") =
      (.dsError ("Request failed after " ++ toString 3 ++ " attempts"),
       (List.range 3).flatMap
         (fun _ => [ReqAction.rateLimitWait, ReqAction.sleep (((2 : Int) : ℚ))])) :=
  c4_429_consumes_attempts 3 1 _ (fun _ => some "2") (fun _ => "slow down")
    (fun _ => 2) (fun _ _ => rfl) (fun _ _ => rfl)

/-- An attempt event that cannot make int() blow up: its Retry-After header
parses whenever the status is 429.  Network errors and all non-429
responses are unconditionally fine. -/
def eventHeaderOk : AttemptEvent → Bool
  | .response status hdr _ => status != 429 || (retryAfterValue hdr).isSome
  | .clientError _ => true

/-- Recogniser for the uncaught-exception outcome. -/
def isValueError : ReqOutcome → Bool
  | .valueError _ => true
  | _ => false

/-- The loop never produces the uncaught ValueError outcome when every
reachable 429 event carries a parseable Retry-After header. -/
theorem retryLoop_no_uncaught (maxRetries : Nat) (baseDelay : ℚ)
    (events : Nat → AttemptEvent)
    (h : ∀ i, i < maxRetries → eventHeaderOk (events i) = true) :
    ∀ remaining acc, remaining ≤ maxRetries →
      isValueError (retryLoop maxRetries baseDelay events remaining acc).1 = false := by
  intro remaining
  induction remaining with
  | zero =>
    intro acc _
    simp [retryLoop, isValueError]
  | succ r ih =>
    intro acc hle
    have hatt : maxRetries - (r + 1) < maxRetries := by omega
    cases hevc : events (maxRetries - (r + 1)) with
    | response status hdr body =>
      have hok := h _ hatt
      rw [hevc] at hok
      simp only [retryLoop, hevc]
      by_cases h200 : status = 200
      · rw [if_pos h200]
        rfl
      · rw [if_neg h200]
        by_cases h429 : status = 429
        · rw [if_pos h429]
          have hsome : (retryAfterValue hdr).isSome = true := by
            subst h429
            simp only [eventHeaderOk, bne_self_eq_false, Bool.false_or] at hok
            exact hok
          obtain ⟨ra, hra⟩ := Option.isSome_iff_exists.mp hsome
          rw [hra]
          exact ih _ (by omega)
        · rw [if_neg h429]
          by_cases h500 : 500 ≤ status
          · rw [if_pos h500]
            exact ih _ (by omega)
          · rw [if_neg h500]
            rfl
    | clientError msg =>
      simp only [retryLoop, hevc]
      by_cases hr : r = 0
      · rw [if_pos hr]
        rfl
      · rw [if_neg hr]
        exact ih _ (by omega)

/-- C5 amended: provided every 429 response carries a Retry-After value
accepted by int() (in particular whenever the header is absent or a plain
integer), the only caller-observable outcomes of _retry_request are a
successful response or a raised DataSourceError.  Without that proviso a
ValueError from int() escapes, as c5_counterexample shows; likewise only
aiohttp.ClientError network failures are converted, which the event model
reflects by construction. -/
theorem c5_outcomes (maxRetries : Nat) (baseDelay : ℚ)
    (events : Nat → AttemptEvent)
    (h : ∀ i, i < maxRetries → eventHeaderOk (events i) = true) :
    (∃ status body,
        (retryRequest maxRetries baseDelay events).1 = .success status body) ∨
    (∃ msg, (retryRequest maxRetries baseDelay events).1 = .dsError msg) := by
  have hno : isValueError (retryRequest maxRetries baseDelay events).1 = false :=
    retryLoop_no_uncaught maxRetries baseDelay events h maxRetries [] le_rfl
  cases hout : (retryRequest maxRetries baseDelay events).1 with
  | success s b => exact Or.inl ⟨s, b, rfl⟩
  | dsError m => exact Or.inr ⟨m, rfl⟩
  | valueError m =>
    rw [hout] at hno
    simp [isValueError] at hno

/-- Witness for c5_outcomes: two attempts that both fail with a network
ClientError end in a DataSourceError outcome, never an escaping
exception. -/
theorem c5_outcomes_witness :
    isValueError
      (retryRequest 2 1 (fun _ => .clientError "connection refused")).1 = false := by
  rcases c5_outcomes 2 1 (fun _ => .clientError "connection refused")
      (fun _ _ => rfl) with ⟨s, b, hsb⟩ | ⟨m, hm⟩
  · rw [hsb]
    rfl
  · rw [hm]
    rfl

/-- C5 counterexample: a 429 response whose Retry-After header is the
non-numeric string "soon" makes int() raise ValueError, which is not an
aiohttp.ClientError and therefore escapes the retry loop uncaught: the
caller observes neither a response nor a DataSourceError. -/
theorem c5_counterexample :
    (retryRequest 3 1 (fun _ => .response 429 (some "soon") "limited")).1 =
      .valueError ("invalid literal for int() with base 10: soon") ∧
    isValueError
      (retryRequest 3 1 (fun _ => .response 429 (some "soon") "limited")).1 = true := by
  constructor <;> decide

/-! ## Validation layer (src/ontario_data/validation.py)

Files on disk are modelled by a PyFile record carrying the facts the
validators inspect: existence, byte size, readability, and the result of
each reader that might be applied to the content (json.load as an optional
parsed value, gpd.read_file as an optional frame, pd.read_csv as an
optional frame, where none models the reader raising).  Exceptions are
modelled with Except: ValidationError is the caught kind, while
AttributeError / TypeError / OSError escape validate_data_file, which
catches ValidationError only. -/

/-- Parsed JSON values (json.load output).  Numbers are modelled as
integers; no claim involves fractional numerics.  Objects produced by
json.load have unique keys (later duplicates overwrite earlier ones), so
key lookup by first match is faithful. -/
inductive JsonVal where
  | null
  | bool (b : Bool)
  | num (n : Int)
  | str (s : String)
  | arr (xs : List JsonVal)
  | obj (fields : List (String × JsonVal))

/-- Python-level exceptions raised by the validation code paths. -/
inductive PyErr where
  | validationError (msg : String)
  | attributeError (msg : String)
  | typeError (msg : String)
  | osError (msg : String)
deriving Repr, DecidableEq

/-- Dictionary key lookup: data["k"] and the test "k" in data. -/
def jsonLookup (fields : List (String × JsonVal)) (k : String) : Option JsonVal :=
  (fields.find? (fun p => p.1 == k)).map (fun p => p.2)

/-- Whether a JSON value is a dict. -/
def isObj : JsonVal → Bool
  | .obj _ => true
  | _ => false

/-- data.keys(): only dicts have keys; anything else raises AttributeError
(modelled as none). -/
def pyKeys : JsonVal → Option (List String)
  | .obj fs => some (fs.map (fun p => p.1))
  | _ => none

/-- len(data): defined for lists, dicts and strings; other JSON values
raise TypeError (none). -/
def pyLen : JsonVal → Option Nat
  | .arr xs => some xs.length
  | .obj fs => some fs.length
  | .str s => some s.length
  | _ => none

/-- data[:10]: slicing is defined for lists and strings (iterating a
sliced string yields one-character strings); other values raise TypeError
(none). -/
def pySliceTen : JsonVal → Option (List JsonVal)
  | .arr xs => some (xs.take 10)
  | .str s => some ((s.toList.take 10).map (fun c => JsonVal.str (String.mk [c])))
  | _ => none

/-- The pd.read_csv result: column headers and row count. -/
structure CsvFrame where
  columns : List String
  nrows : Nat
deriving Repr, DecidableEq

/-- The geometry slot of one GeoDataFrame row, as the checks in
validate_geojson_file distinguish them: geom is None, geom.is_empty,
not geom.is_valid (with the explain_validity text), or valid. -/
inductive GeomState where
  | missingGeom
  | emptyGeom
  | invalidGeom (reason : String)
  | validGeom
deriving Repr, DecidableEq

/-- The gpd.read_file result: the column schema, the CRS as its string
form (none when no CRS is defined), and one geometry slot per feature
row, so len(gdf) is geoms.length. -/
structure GeoDataFrame where
  columns : List String
  crs : Option String
  geoms : List GeomState
deriving Repr, DecidableEq

/-- A file on disk together with the outcome of each reader the
validators may apply to it. -/
structure PyFile where
  path : String
  present : Bool
  size : Nat
  readOk : Bool
  jsonParse : Option JsonVal
  geoLoad : Option GeoDataFrame
  csvLoad : Option CsvFrame

/-- validate_file_exists: the file must exist and be at least
minSizeBytes (call sites in this module use the default 100). -/
def validate_file_exists (f : PyFile) (minSizeBytes : Nat) : Except PyErr Unit :=
  if !f.present then
    .error (.validationError ("File does not exist: " ++ f.path))
  else if f.size < minSizeBytes then
    .error (.validationError ("File is too small (" ++ toString f.size ++
      " bytes, expected at least " ++ toString minSizeBytes ++ "): " ++ f.path))
  else .ok ()

/-- validate_json_file: existence and size check, open and json.load
(an unreadable file raises OSError, invalid JSON raises ValidationError),
then the optional required-keys check (data.keys() raises AttributeError
on a non-dict).  Python renders the missing keys as a set; the message is
modelled with the list rendering, which no claim inspects. -/
def validate_json_file (f : PyFile) (requiredKeys : List String) :
    Except PyErr JsonVal :=
  match validate_file_exists f 100 with
  | .error e => .error e
  | .ok _ =>
    if !f.readOk then
      .error (.osError ("could not read " ++ f.path))
    else
      match f.jsonParse with
      | none => .error (.validationError ("Invalid JSON in " ++ f.path))
      | some data =>
        if requiredKeys.isEmpty then .ok data
        else
          match pyKeys data with
          | none => .error (.attributeError "object has no attribute keys")
          | some ks =>
            let missingKeys := requiredKeys.filter (fun k => !ks.contains k)
            if missingKeys.isEmpty then .ok data
            else
              .error (.validationError ("JSON missing required keys in " ++
                f.path ++ ": " ++ toString missingKeys))

/-- The observation-list extraction of validate_json_observations: a dict
is probed for "observations" then "features", and failing both is wrapped
as a one-element list; a list is taken as is; anything else raises
ValidationError. -/
def extract_observations (data : JsonVal) (path : String) : Except PyErr JsonVal :=
  match data with
  | .obj fs =>
    match jsonLookup fs "observations" with
    | some v => .ok v
    | none =>
      match jsonLookup fs "features" with
      | some v => .ok v
      | none => .ok (.arr [.obj fs])
  | .arr xs => .ok (.arr xs)
  | _ => .error (.validationError ("JSON data is not a list or dict in " ++ path))

/-- The required-fields sampling loop of validate_json_observations over
the (at most 10) sampled records: a warning per record with missing
fields; a record without .keys() raises AttributeError, discarding the
warnings collected so far, as an exception does in Python. -/
def sampleFieldWarnings (path : String) (requiredFields : List String) :
    List JsonVal → Nat → Except PyErr (List String)
  | [], _ => .ok []
  | obs :: rest, idx =>
    match pyKeys obs with
    | none => .error (.attributeError "object has no attribute keys")
    | some ks =>
      let missingFields := requiredFields.filter (fun k => !ks.contains k)
      match sampleFieldWarnings path requiredFields rest (idx + 1) with
      | .error e => .error e
      | .ok ws =>
        .ok (if !missingFields.isEmpty then
              ("Observation " ++ toString idx ++ " missing fields in " ++
                path ++ ": " ++ toString missingFields) :: ws
             else ws)

/-- The prefix of validate_json_observations that does not involve
required_fields: parse via validate_json_file (no required top-level
keys), extract the observation list, take len(observations) (TypeError on
a value without len) and compare it with min_observations. -/
def obs_count_check (f : PyFile) (minObservations : Nat) :
    Except PyErr JsonVal :=
  match validate_json_file f [] with
  | .error e => .error e
  | .ok data =>
    match extract_observations data f.path with
    | .error e => .error e
    | .ok observations =>
      match pyLen observations with
      | none => .error (.typeError "object has no len")
      | some count =>
        if count < minObservations then
          .error (.validationError ("Too few observations in " ++ f.path ++
            ": " ++ toString count ++ " (expected at least " ++
            toString minObservations ++ ")"))
        else .ok observations

/-- validate_json_observations: the count-checking prefix, then the
sampling of the first 10 records for required fields, producing warnings
only (the whole loop is skipped when required_fields is empty or None). -/
def validate_json_observations (f : PyFile) (minObservations : Nat)
    (requiredFields : List String) : Except PyErr (JsonVal × List String) :=
  match obs_count_check f minObservations with
  | .error e => .error e
  | .ok observations =>
    if requiredFields.isEmpty then
      .ok (observations, [])
    else
      match pySliceTen observations with
      | none => .error (.typeError "object is not subscriptable")
      | some sampled =>
        match sampleFieldWarnings f.path requiredFields sampled 0 with
        | .error e => .error e
        | .ok warnings => .ok (observations, warnings)

/-- The CRS warnings of validate_geojson_file: no CRS defined, or a CRS
other than EPSG:4326. -/
def crsWarnings (gdf : GeoDataFrame) (path : String) : List String :=
  match gdf.crs with
  | none => ["GeoJSON has no CRS defined in " ++ path]
  | some c =>
    if c ≠ "EPSG:4326" then
      ["GeoJSON CRS is " ++ c ++ ", expected EPSG:4326 in " ++ path]
    else []

/-- The per-feature geometry tally of validate_geojson_file: a message per
feature whose geometry is missing or empty ("empty geometry") or invalid
(the explain_validity text). -/
def invalidGeomMessages (geoms : List GeomState) : List String :=
  geoms.enum.filterMap (fun p =>
    match p.2 with
    | .missingGeom => some ("Feature " ++ toString p.1 ++ ": empty geometry")
    | .emptyGeom => some ("Feature " ++ toString p.1 ++ ": empty geometry")
    | .invalidGeom reason => some ("Feature " ++ toString p.1 ++ ": " ++ reason)
    | .validGeom => none)

/-- validate_geojson_file: existence and size check, gpd.read_file (any
reader exception becomes a ValidationError), feature count against
min_features, required properties against the schema, CRS warnings, and
the geometry tally with its 10 percent hard-failure threshold.  The
Python comparison is len(invalid_geoms) > len(gdf) * 0.1 in binary
floating point; since 0.1 as a double is slightly above 1/10 and both
counts are integers, the comparison agrees with the exact rational one
for every feature count, so the rational form is faithful. -/
def validate_geojson_file (f : PyFile) (minFeatures : Nat)
    (requiredProperties : List String) (checkGeometries : Bool) :
    Except PyErr (GeoDataFrame × List String) :=
  match validate_file_exists f 100 with
  | .error e => .error e
  | .ok _ =>
    match f.geoLoad with
    | none => .error (.validationError ("Failed to read GeoJSON " ++ f.path))
    | some gdf =>
      if gdf.geoms.length < minFeatures then
        .error (.validationError ("GeoJSON has too few features in " ++ f.path ++
          ": " ++ toString gdf.geoms.length ++ " (expected at least " ++
          toString minFeatures ++ ")"))
      else
        if !requiredProperties.isEmpty &&
            !(requiredProperties.filter (fun p => !gdf.columns.contains p)).isEmpty then
          .error (.validationError ("GeoJSON missing required properties in " ++
            f.path ++ ": " ++
            toString (requiredProperties.filter (fun p => !gdf.columns.contains p))))
        else
          if checkGeometries && gdf.columns.contains "geometry" then
            if !(invalidGeomMessages gdf.geoms).isEmpty then
              if ((invalidGeomMessages gdf.geoms).length : ℚ) >
                  (gdf.geoms.length : ℚ) * (1 / 10) then
                .error (.validationError ("Too many invalid geometries in " ++
                  f.path ++ ": " ++ toString (invalidGeomMessages gdf.geoms).length ++
                  "/" ++ toString gdf.geoms.length))
              else
                .ok (gdf, crsWarnings gdf f.path ++
                  ["Some invalid geometries in " ++ f.path ++
                    ": " ++ toString (invalidGeomMessages gdf.geoms).length ++
                    "/" ++ toString gdf.geoms.length])
            else .ok (gdf, crsWarnings gdf f.path)
          else .ok (gdf, crsWarnings gdf f.path)

/-- The format dispatch of validate_data_file, before the final triple
assembly: the branch for the given data_type, returning the accumulated
(errors, warnings) on normal completion and the raised exception
otherwise.  The geojson and json branches contribute no error strings
directly (their failures are raised ValidationErrors); the csv branch
catches every reader exception internally. -/
def runValidation (f : PyFile) (dataType : String) (minRecords : Nat)
    (requiredFields : List String) : Except PyErr (List String × List String) :=
  if dataType = "geojson" then
    match validate_geojson_file f minRecords requiredFields true with
    | .ok (_, fileWarnings) => .ok ([], fileWarnings)
    | .error e => .error e
  else if dataType = "json" then
    match validate_json_observations f minRecords requiredFields with
    | .ok (_, fileWarnings) => .ok ([], fileWarnings)
    | .error e => .error e
  else if dataType = "csv" then
    match validate_file_exists f 100 with
    | .error e => .error e
    | .ok _ =>
      match f.csvLoad with
      | none => .ok (["Failed to read CSV"], [])
      | some df =>
        .ok ((if df.nrows < minRecords then
                ["CSV has too few records: " ++ toString df.nrows ++
                  " (expected at least " ++ toString minRecords ++ ")"]
              else []) ++
             (if !requiredFields.isEmpty &&
                  !(requiredFields.filter (fun k => !df.columns.contains k)).isEmpty then
                ["CSV missing required columns: " ++
                  toString (requiredFields.filter (fun k => !df.columns.contains k))]
              else []), [])
  else .ok (["Unknown data type: " ++ dataType], [])

/-- validate_data_file: runs the format branch inside
try/except ValidationError; a caught ValidationError is recorded as the
single error string, with no warnings (the warning extension is skipped
when the sub-validator raises); every other exception propagates to the
caller.  The returned success flag is len(errors) == 0. -/
def validate_data_file (f : PyFile) (dataType : String) (minRecords : Nat)
    (requiredFields : List String) :
    Except PyErr (Bool × List String × List String) :=
  match runValidation f dataType minRecords requiredFields with
  | .ok (errors, warnings) => .ok (errors.isEmpty, errors, warnings)
  | .error (.validationError msg) => .ok (([msg] : List String).isEmpty, [msg], [])
  | .error e => .error e

/-- One entry of results["sources"]: the .get() lookups performed by
validate_collection_results.  count is an integer per the report format. -/
structure SourceInfo where
  status : Option String
  errMsg : Option String
  file : Option PyFile
  count : Option Int

/-- The collection results dictionary: whether the "sources" key is
present, and its entries in iteration order. -/
structure CollectionResults where
  hasSourcesKey : Bool
  sources : List (String × SourceInfo)

/-- The per-source body of the loop in validate_collection_results,
threading the (errors, warnings) accumulators exactly as the if/elif
chain does; status None falls to the unknown-status branch, printed as
"None".  The Python message quotes the status; the quotes are omitted
here (no claim inspects the text). -/
def collectSource (acc : List String × List String)
    (entry : String × SourceInfo) : List String × List String :=
  let errors := acc.1
  let warnings := acc.2
  let sourceName := entry.1
  let info := entry.2
  if info.status = some "error" then
    (errors ++ [sourceName ++ ": " ++ (info.errMsg.getD "Unknown error")], warnings)
  else if info.status = some "no_data" then
    (errors, warnings ++ [sourceName ++ ": No data returned (may be expected)"])
  else if info.status = some "success" then
    let errors1 :=
      match info.file with
      | some f =>
        match validate_file_exists f 100 with
        | .error (.validationError msg) => errors ++ [sourceName ++ ": " ++ msg]
        | _ => errors
      | none => errors
    let warnings1 :=
      match info.count with
      | some c =>
        if c = 0 then warnings ++ [sourceName ++ ": File exists but has 0 records"]
        else warnings
      | none => warnings
    (errors1, warnings1)
  else if info.status = some "metadata_only" then
    (errors, warnings)
  else
    let statusRepr := match info.status with
      | some s => s
      | none => "None"
    (errors, warnings ++ [sourceName ++ ": Unknown status " ++ statusRepr])

/-- validate_collection_results: a missing "sources" key returns
(False, [the one error], []); otherwise the per-source loop accumulates
errors and warnings, and success = len(errors) == 0. -/
def validate_collection_results (results : CollectionResults) :
    Bool × List String × List String :=
  if !results.hasSourcesKey then
    (false, ["Collection results missing sources key"], [])
  else
    let (errors, warnings) := results.sources.foldl collectSource ([], [])
    (errors.isEmpty, errors, warnings)

/-! ## Claims about the validation layer -/

/-- validate_file_exists only raises ValidationError. -/
theorem vfe_error_is_validation (f : PyFile) (minS : Nat) (e : PyErr)
    (h : validate_file_exists f minS = .error e) :
    ∃ m, e = .validationError m := by
  unfold validate_file_exists at h
  split at h
  · exact ⟨_, (Except.error.inj h).symm⟩
  · split at h
    · exact ⟨_, (Except.error.inj h).symm⟩
    · cases h

/-- A present, large-enough file passes validate_file_exists. -/
theorem vfe_ok (f : PyFile) (minS : Nat) (hp : f.present = true)
    (hs : minS ≤ f.size) : validate_file_exists f minS = .ok () := by
  unfold validate_file_exists
  have h1 : ¬ (f.size < minS) := by omega
  simp [hp, h1]

/-- validate_geojson_file only raises ValidationError: a failed
gpd.read_file, a low feature count, missing properties and the geometry
threshold are all wrapped in ValidationError. -/
theorem geojson_error_is_validation (f : PyFile) (minF : Nat)
    (props : List String) (cg : Bool) (e : PyErr)
    (h : validate_geojson_file f minF props cg = .error e) :
    ∃ m, e = .validationError m := by
  unfold validate_geojson_file at h
  split at h
  · rename_i e2 hv
    cases h
    exact vfe_error_is_validation f 100 _ hv
  · split at h
    · cases h
      exact ⟨_, rfl⟩
    · split at h
      · cases h
        exact ⟨_, rfl⟩
      · split at h
        · cases h
          exact ⟨_, rfl⟩
        · split at h
          · split at h
            · split at h
              · cases h
                exact ⟨_, rfl⟩
              · cases h
            · cases h
          · cases h

/-- validate_json_file with no required keys raises ValidationError
whenever the file is readable. -/
theorem vjf_error_is_validation (f : PyFile) (e : PyErr)
    (hread : f.readOk = true)
    (h : validate_json_file f [] = .error e) :
    ∃ m, e = .validationError m := by
  unfold validate_json_file at h
  split at h
  · rename_i e2 hv
    cases h
    exact vfe_error_is_validation f 100 _ hv
  · split at h
    · rename_i hcon
      rw [hread] at hcon
      simp at hcon
    · split at h
      · cases h
        exact ⟨_, rfl⟩
      · split at h
        · cases h
        · rename_i hcon
          simp at hcon

/-- validate_json_file succeeds exactly with the parsed content. -/
theorem vjf_ok_parse (f : PyFile) (data : JsonVal)
    (h : validate_json_file f [] = .ok data) : f.jsonParse = some data := by
  unfold validate_json_file at h
  split at h
  · cases h
  · split at h
    · cases h
    · split at h
      · cases h
      · rename_i d hparse
        split at h
        · cases h
          exact hparse
        · rename_i hcon
          simp at hcon

/-- extract_observations only raises ValidationError. -/
theorem extract_error_is_validation (data : JsonVal) (path : String) (e : PyErr)
    (h : extract_observations data path = .error e) :
    ∃ m, e = .validationError m := by
  unfold extract_observations at h
  split at h
  · split at h
    · cases h
    · split at h
      · cases h
      · cases h
  · cases h
  · cases h
    exact ⟨_, rfl⟩

/-- sampleFieldWarnings fails only with the AttributeError raised by
.keys() on a non-dict record. -/
theorem sampleFieldWarnings_error (path : String) (req : List String) :
    ∀ (l : List JsonVal) (idx : Nat) (e : PyErr),
      sampleFieldWarnings path req l idx = .error e →
      e = .attributeError "object has no attribute keys" := by
  intro l
  induction l with
  | nil =>
    intro idx e h
    cases h
  | cons x rest ih =>
    intro idx e h
    unfold sampleFieldWarnings at h
    split at h
    · cases h
      rfl
    · split at h
      · rename_i e2 hrec
        cases h
        exact ih _ _ hrec
      · cases h

/-- sampleFieldWarnings cannot fail on a list of dicts. -/
theorem sampleFieldWarnings_no_error (path : String) (req : List String) :
    ∀ (l : List JsonVal) (idx : Nat) (e : PyErr), l.all isObj = true →
      sampleFieldWarnings path req l idx = .error e → False := by
  intro l
  induction l with
  | nil =>
    intro idx e _ h
    cases h
  | cons x rest ih =>
    intro idx e hall h
    simp only [List.all_cons, Bool.and_eq_true] at hall
    obtain ⟨hx, hrest⟩ := hall
    unfold sampleFieldWarnings at h
    split at h
    · rename_i hkeys
      cases x with
      | obj fs => simp [pyKeys] at hkeys
      | null => simp [isObj] at hx
      | bool b => simp [isObj] at hx
      | num n => simp [isObj] at hx
      | str s => simp [isObj] at hx
      | arr xs => simp [isObj] at hx
    · split at h
      · rename_i e2 hrec
        cases h
        exact ih _ _ hrest hrec
      · cases h

/-- An array all of whose elements are dicts. -/
def isObjArr : JsonVal → Bool
  | .arr xs => xs.all isObj
  | _ => false

/-- The shape condition under which the json path cannot raise an
uncaught exception: whatever observation list validate_json_observations
would extract is an array of dicts.  A dict without an
observations/features key always extracts to the one-element array of
itself, and a non-list non-dict value raises the caught ValidationError,
so those are unconditionally fine. -/
def obsShapeOk : JsonVal → Bool
  | .obj fs =>
    match jsonLookup fs "observations" with
    | some v => isObjArr v
    | none =>
      match jsonLookup fs "features" with
      | some v => isObjArr v
      | none => true
  | .arr xs => xs.all isObj
  | _ => true

/-- Lifts obsShapeOk to a file: an unparseable file raises the caught
ValidationError, so only a parsed value constrains the shape. -/
def jsonFileShapeOk (f : PyFile) : Bool :=
  match f.jsonParse with
  | none => true
  | some v => obsShapeOk v

/-- Anything extract_observations returns from a shape-ok value is an
array of dicts. -/
theorem extract_shape (data : JsonVal) (path : String) (obs : JsonVal)
    (hs : obsShapeOk data = true)
    (h : extract_observations data path = .ok obs) : isObjArr obs = true := by
  cases data with
  | obj fs =>
    unfold extract_observations at h
    unfold obsShapeOk at hs
    cases hobs : jsonLookup fs "observations" with
    | some v =>
      simp only [hobs] at h hs
      cases h
      exact hs
    | none =>
      simp only [hobs] at h hs
      cases hfeat : jsonLookup fs "features" with
      | some v =>
        simp only [hfeat] at h hs
        cases h
        exact hs
      | none =>
        simp only [hfeat] at h
        cases h
        simp [isObjArr, isObj]
  | arr xs =>
    unfold extract_observations at h
    cases h
    simpa [obsShapeOk, isObjArr] using hs
  | null => cases h
  | bool b => cases h
  | num n => cases h
  | str s => cases h

/-- The count-check prefix of the json path raises only ValidationError
on a readable file. -/
theorem obs_count_check_error (f : PyFile) (minO : Nat) (e : PyErr)
    (hread : f.readOk = true) (hshape : jsonFileShapeOk f = true)
    (h : obs_count_check f minO = .error e) :
    ∃ m, e = .validationError m := by
  unfold obs_count_check at h
  split at h
  · rename_i e2 hvj
    cases h
    exact vjf_error_is_validation f _ hread hvj
  · rename_i data hvj
    split at h
    · rename_i e2 hex
      cases h
      exact extract_error_is_validation data f.path _ hex
    · rename_i observations hex
      have hparse := vjf_ok_parse f data hvj
      have hdata : obsShapeOk data = true := by
        unfold jsonFileShapeOk at hshape
        rw [hparse] at hshape
        exact hshape
      have hobsarr := extract_shape data f.path observations hdata hex
      cases observations with
      | arr xs =>
        split at h
        · rename_i hlen
          simp [pyLen] at hlen
        · split at h
          · cases h
            exact ⟨_, rfl⟩
          · cases h
      | null => simp [isObjArr] at hobsarr
      | bool b => simp [isObjArr] at hobsarr
      | num n => simp [isObjArr] at hobsarr
      | str s => simp [isObjArr] at hobsarr
      | obj fs => simp [isObjArr] at hobsarr

/-- The count-check prefix preserves the array-of-dicts shape. -/
theorem obs_count_check_shape (f : PyFile) (minO : Nat) (obs : JsonVal)
    (hshape : jsonFileShapeOk f = true)
    (h : obs_count_check f minO = .ok obs) : isObjArr obs = true := by
  unfold obs_count_check at h
  split at h
  · cases h
  · rename_i data hvj
    split at h
    · cases h
    · rename_i observations hex
      have hparse := vjf_ok_parse f data hvj
      have hdata : obsShapeOk data = true := by
        unfold jsonFileShapeOk at hshape
        rw [hparse] at hshape
        exact hshape
      have hobsarr := extract_shape data f.path observations hdata hex
      split at h
      · cases h
      · split at h
        · cases h
        · cases h
          exact hobsarr

/-- validate_json_observations raises only ValidationError on a readable,
shape-ok file: the count and parse failures are ValidationErrors, and the
sampling loop cannot hit a non-dict record. -/
theorem vjo_error_is_validation (f : PyFile) (minO : Nat)
    (req : List String) (e : PyErr)
    (hread : f.readOk = true) (hshape : jsonFileShapeOk f = true)
    (h : validate_json_observations f minO req = .error e) :
    ∃ m, e = .validationError m := by
  unfold validate_json_observations at h
  split at h
  · rename_i e2 hc
    cases h
    exact obs_count_check_error f minO _ hread hshape hc
  · rename_i observations hc
    have hobsarr := obs_count_check_shape f minO observations hshape hc
    split at h
    · cases h
    · cases observations with
      | arr xs =>
        split at h
        · rename_i hsl
          simp [pySliceTen] at hsl
        · rename_i sampled hsl
          split at h
          · rename_i e2 hsf
            cases h
            have htake : sampled = xs.take 10 := by
              simp [pySliceTen] at hsl
              exact hsl.symm
            have hall : sampled.all isObj = true := by
              rw [htake]
              simp only [isObjArr] at hobsarr
              exact List.all_eq_true.mpr
                (fun x hx => List.all_eq_true.mp hobsarr x (List.mem_of_mem_take hx))
            exact (sampleFieldWarnings_no_error f.path req sampled 0 e hall hsf).elim
          · cases h
      | null => simp [isObjArr] at hobsarr
      | bool b => simp [isObjArr] at hobsarr
      | num n => simp [isObjArr] at hobsarr
      | str s => simp [isObjArr] at hobsarr
      | obj fs => simp [isObjArr] at hobsarr

/-- Whether validate_data_file returned its triple (rather than raising). -/
def returnsTriple : Except PyErr (Bool × List String × List String) → Bool
  | .ok _ => true
  | .error _ => false

/-- A readable JSON file whose observation list contains a non-dict
record: ["not a record"]. -/
def c6BadFile : PyFile :=
  { path := "observations.json", present := true, size := 200, readOk := true,
    jsonParse := some (.arr [.str "not a record"]), geoLoad := none,
    csvLoad := none }

/-- C6 counterexample: a malformed-record file (a JSON list whose first
record is a string, not an object) makes validate_data_file raise: the
sampling loop calls .keys() on the record and the AttributeError is not a
ValidationError, so it escapes instead of being reported in the errors
list.  This is a data-shape problem, not an I/O failure: the file exists,
is large enough and parses as JSON. -/
theorem c6_counterexample :
    validate_data_file c6BadFile "json" 1 ["species"] =
      .error (.attributeError "object has no attribute keys") := by
  rfl

/-- C6 amended: validate_data_file always returns the full
(success, errors, warnings) triple, provided that (besides the file being
readable once it passes the existence check, the carve-out the claim
already makes) the observation list a json-format file supplies is an
array of JSON objects: geojson, csv and unknown formats never raise, and
on the json path every missing file, low count, missing field or
unparseable content is also reported in the triple, but a non-dict
observation record under a non-empty requiredFields makes .keys() raise
an uncaught AttributeError (c6_counterexample), and a non-list
observations/features value can likewise raise TypeError. -/
theorem c6_returns_triple (f : PyFile) (dt : String) (minR : Nat)
    (req : List String) (hread : f.readOk = true)
    (hshape : dt = "json" → jsonFileShapeOk f = true) :
    ∃ s errs warns,
      validate_data_file f dt minR req = .ok (s, errs, warns) := by
  cases hrv : runValidation f dt minR req with
  | ok p =>
    obtain ⟨errors, warnings⟩ := p
    exact ⟨errors.isEmpty, errors, warnings, by
      unfold validate_data_file
      rw [hrv]⟩
  | error e =>
    have hval : ∃ m, e = .validationError m := by
      unfold runValidation at hrv
      split at hrv
      · split at hrv
        · cases hrv
        · rename_i e2 hvg
          cases hrv
          exact geojson_error_is_validation f minR req true _ hvg
      · split at hrv
        · rename_i hne hdt
          split at hrv
          · cases hrv
          · rename_i e2 hvj
            cases hrv
            exact vjo_error_is_validation f minR req _ hread (hshape hdt) hvj
        · split at hrv
          · split at hrv
            · rename_i e2 hvf
              cases hrv
              exact vfe_error_is_validation f 100 _ hvf
            · split at hrv
              · cases hrv
              · cases hrv
          · cases hrv
    obtain ⟨m, hm⟩ := hval
    subst hm
    exact ⟨false, [m], [], by
      unfold validate_data_file
      rw [hrv]
      rfl⟩

/-- A well-shaped observations file for the C6 witness. -/
def c6WitnessFile : PyFile :=
  { path := "inaturalist_observations_2024.json", present := true,
    size := 2048, readOk := true,
    jsonParse := some (.obj [("observations",
      .arr [.obj [("species", .str "Castor canadensis")]])]),
    geoLoad := none, csvLoad := none }

/-- Witness for c6_returns_triple: a readable json file whose observation
list is an array of dicts yields a returned triple, not an exception. -/
theorem c6_returns_triple_witness :
    returnsTriple (validate_data_file c6WitnessFile "json" 1 ["species"]) = true := by
  obtain ⟨s, errs, warns, h⟩ :=
    c6_returns_triple c6WitnessFile "json" 1 ["species"] rfl (fun _ => rfl)
  rw [h]
  rfl

/-- C10: whenever validate_data_file returns its triple, and always for
validate_collection_results, the success flag is true exactly when the
errors list is empty: both functions compute success as
len(errors) == 0, and warnings never enter the flag. -/
theorem c10_success_iff_no_errors :
    (∀ (f : PyFile) (dt : String) (minR : Nat) (req : List String)
        (s : Bool) (errs warns : List String),
        validate_data_file f dt minR req = .ok (s, errs, warns) →
        (s = true ↔ errs = [])) ∧
    (∀ (results : CollectionResults) (s : Bool) (errs warns : List String),
        validate_collection_results results = (s, errs, warns) →
        (s = true ↔ errs = [])) := by
  constructor
  · intro f dt minR req s errs warns h
    unfold validate_data_file at h
    split at h
    · cases h
      exact List.isEmpty_iff
    · cases h
      simp
    · cases h
  · intro results s errs warns h
    unfold validate_collection_results at h
    split at h
    · cases h
      simp
    · rcases hfe : results.sources.foldl collectSource ([], []) with ⟨errors, warnings⟩
      rw [hfe] at h
      cases h
      exact List.isEmpty_iff

/-- A registry path that is absent from disk, for the C10 witness. -/
def c10WitnessFile : PyFile :=
  { path := "data/processed/provincial_parks.geojson", present := false,
    size := 0, readOk := false, jsonParse := none, geoLoad := none,
    csvLoad := none }

/-- Witness for c10_success_iff_no_errors: a missing geojson file returns
success = false together with the one existence error, and the iff holds
at that triple. -/
theorem c10_success_iff_no_errors_witness :
    validate_data_file c10WitnessFile "geojson" 1 [] =
      .ok (false,
        ["File does not exist: data/processed/provincial_parks.geojson"], []) ∧
    (false = true ↔
      (["File does not exist: data/processed/provincial_parks.geojson"] :
        List String) = []) :=
  ⟨by rfl,
   c10_success_iff_no_errors.1 c10WitnessFile "geojson" 1 [] false
     ["File does not exist: data/processed/provincial_parks.geojson"] []
     (by rfl)⟩

/-- When the json path completes with required fields, running it with an
empty required-fields list completes with the same observations and no
warnings: everything before the field-sampling loop is independent of
required_fields. -/
theorem vjo_drop_req_ok (f : PyFile) (minO : Nat) (req : List String)
    (obs : JsonVal) (ws : List String)
    (h : validate_json_observations f minO req = .ok (obs, ws)) :
    validate_json_observations f minO [] = .ok (obs, []) := by
  unfold validate_json_observations at h ⊢
  cases hc : obs_count_check f minO with
  | error e =>
    simp only [hc] at h
    cases h
  | ok observations =>
    simp only [hc] at h ⊢
    by_cases hreq : req.isEmpty = true
    · rw [if_pos hreq] at h
      cases h
      rfl
    · rw [if_neg hreq] at h
      cases hsl : pySliceTen observations with
      | none =>
        simp only [hsl] at h
        cases h
      | some sampled =>
        simp only [hsl] at h
        cases hsf : sampleFieldWarnings f.path req sampled 0 with
        | error e2 =>
          simp only [hsf] at h
          cases h
        | ok ws2 =>
          simp only [hsf] at h
          cases h
          rfl

/-- When the json path raises a ValidationError with required fields, it
raises the same ValidationError with an empty required-fields list: the
sampling loop itself never raises ValidationError (its only failure mode
is the AttributeError from .keys()). -/
theorem vjo_drop_req_err (f : PyFile) (minO : Nat) (req : List String)
    (m : String)
    (h : validate_json_observations f minO req = .error (.validationError m)) :
    validate_json_observations f minO [] = .error (.validationError m) := by
  unfold validate_json_observations at h ⊢
  cases hc : obs_count_check f minO with
  | error e =>
    simp only [hc] at h ⊢
    exact h
  | ok observations =>
    simp only [hc] at h
    by_cases hreq : req.isEmpty = true
    · rw [if_pos hreq] at h
      cases h
    · rw [if_neg hreq] at h
      cases hsl : pySliceTen observations with
      | none =>
        simp only [hsl] at h
        cases h
      | some sampled =>
        simp only [hsl] at h
        cases hsf : sampleFieldWarnings f.path req sampled 0 with
        | error e2 =>
          simp only [hsf] at h
          cases h
          have hattr := sampleFieldWarnings_error f.path req sampled 0 _ hsf
          cases hattr
        | ok ws2 =>
          simp only [hsf] at h
          cases h

/-- Replacing the json content of a file. -/
def withJson (f : PyFile) (v : JsonVal) : PyFile :=
  { f with jsonParse := some v }

/-- Normal form of the json path on a file whose content is a JSON array:
the count check sees only the length, and the sampling loop sees only the
first 10 records. -/
theorem vjo_withJson_arr (f : PyFile) (xs : List JsonVal) (minO : Nat)
    (req : List String) :
    validate_json_observations (withJson f (.arr xs)) minO req =
      match validate_file_exists f 100 with
      | .error e => .error e
      | .ok _ =>
        if !f.readOk then .error (.osError ("could not read " ++ f.path))
        else if xs.length < minO then
          .error (.validationError ("Too few observations in " ++ f.path ++
            ": " ++ toString xs.length ++ " (expected at least " ++
            toString minO ++ ")"))
        else if req.isEmpty then .ok (.arr xs, [])
        else
          match sampleFieldWarnings f.path req (xs.take 10) 0 with
          | .error e => .error e
          | .ok ws => .ok (.arr xs, ws) := by
  unfold validate_json_observations obs_count_check validate_json_file
  rw [show validate_file_exists (withJson f (.arr xs)) 100 =
      validate_file_exists f 100 from rfl]
  cases hv : validate_file_exists f 100 with
  | error e => rfl
  | ok u =>
    rw [show (withJson f (.arr xs)).readOk = f.readOk from rfl,
        show (withJson f (.arr xs)).path = f.path from rfl,
        show (withJson f (.arr xs)).jsonParse = some (.arr xs) from rfl]
    cases hr : f.readOk with
    | false => rfl
    | true =>
      by_cases hlt : xs.length < minO
      · simp [extract_observations, pyLen, hlt]
      · simp [extract_observations, pyLen, pySliceTen, hlt]

/-- The json branch of the format dispatch. -/
theorem runValidation_json (f : PyFile) (minR : Nat) (req : List String) :
    runValidation f "json" minR req =
      match validate_json_observations f minR req with
      | .ok (_, fileWarnings) => .ok ([], fileWarnings)
      | .error e => .error e := by
  unfold runValidation
  rw [if_neg (show ¬("json" : String) = "geojson" by decide),
      if_pos (show ("json" : String) = "json" from rfl)]

/-- C8: on the json format, missing required fields surface only as
warnings: the success flag and the errors list of a returned triple are
exactly those of the same validation run with no required fields (first
conjunct, which also shows the field check contributes nothing to
errors); and only the first 10 records are examined: two array contents
of equal length agreeing on their first 10 records produce identical
triples, whatever the records from index 10 onward contain (second
conjunct). -/
theorem c8_field_sampling :
    (∀ (f : PyFile) (minR : Nat) (req : List String) (s : Bool)
        (errs warns : List String),
        validate_data_file f "json" minR req = .ok (s, errs, warns) →
        validate_data_file f "json" minR [] = .ok (s, errs, [])) ∧
    (∀ (f : PyFile) (minR : Nat) (req : List String) (xs ys : List JsonVal),
        xs.length = ys.length → xs.take 10 = ys.take 10 →
        validate_data_file (withJson f (.arr xs)) "json" minR req =
          validate_data_file (withJson f (.arr ys)) "json" minR req) := by
  constructor
  · intro f minR req s errs warns h
    unfold validate_data_file at h ⊢
    rw [runValidation_json] at h ⊢
    cases hv : validate_json_observations f minR req with
    | ok p =>
      obtain ⟨obs, ws⟩ := p
      simp only [hv] at h
      cases h
      have h0 := vjo_drop_req_ok f minR req obs _ hv
      simp only [h0]
    | error e =>
      cases e with
      | validationError m =>
        simp only [hv] at h
        cases h
        have h0 := vjo_drop_req_err f minR req m hv
        simp only [h0]
      | attributeError m =>
        simp only [hv] at h
        cases h
      | typeError m =>
        simp only [hv] at h
        cases h
      | osError m =>
        simp only [hv] at h
        cases h
  · intro f minR req xs ys hlen htake
    unfold validate_data_file
    rw [runValidation_json, runValidation_json, vjo_withJson_arr,
        vjo_withJson_arr, hlen, htake]
    cases hv : validate_file_exists f 100 with
    | error e => rfl
    | ok u =>
      cases hr : f.readOk with
      | false => rfl
      | true =>
        by_cases hlt : ys.length < minR
        · simp [hlt]
        · simp only [if_neg hlt]
          by_cases hreq : req.isEmpty = true
          · simp [hreq]
          · simp only [hreq, if_false]
            cases hsf : sampleFieldWarnings f.path req (List.take 10 ys) 0 with
            | error e2 => simp [hsf]
            | ok ws2 => simp [hsf]

/-- A one-record observations file for the C8 witness. -/
def c8WitnessFile : PyFile :=
  { path := "obs.json", present := true, size := 512, readOk := true,
    jsonParse := some (.arr [.obj [("species", .str "x")]]),
    geoLoad := none, csvLoad := none }

/-- Witness for c8_field_sampling: the one-record file validates to the
same success and errors with and without required fields, and two
11-record contents differing only at index 10 (the second even has a
non-dict there) validate identically. -/
theorem c8_field_sampling_witness :
    validate_data_file c8WitnessFile "json" 1 [] = .ok (true, [], []) ∧
    validate_data_file (withJson c8WitnessFile
        (.arr (List.replicate 11 (.obj [("species", .str "x")]))))
        "json" 1 ["species"] =
      validate_data_file (withJson c8WitnessFile
        (.arr (List.replicate 10 (.obj [("species", .str "x")]) ++
          [.str "junk"]))) "json" 1 ["species"] :=
  ⟨c8_field_sampling.1 c8WitnessFile 1 ["species"] true [] [] (by rfl),
   c8_field_sampling.2 c8WitnessFile 1 ["species"] _ _ (by rfl) (by rfl)⟩

/-- The geojson branch of the format dispatch. -/
theorem runValidation_geojson (f : PyFile) (minR : Nat) (req : List String) :
    runValidation f "geojson" minR req =
      match validate_geojson_file f minR req true with
      | .ok (_, fileWarnings) => .ok ([], fileWarnings)
      | .error e => .error e := by
  unfold runValidation
  rw [if_pos (show ("geojson" : String) = "geojson" from rfl)]

/-- Evaluation of validate_geojson_file on a file that passes the
existence, read, feature-count and required-property checks: only the
geometry tally decides the outcome. -/
theorem validate_geojson_eval (f : PyFile) (gdf : GeoDataFrame) (minF : Nat)
    (props : List String)
    (hp : f.present = true) (hs : 100 ≤ f.size)
    (hgeo : f.geoLoad = some gdf)
    (hcount : minF ≤ gdf.geoms.length)
    (hprops : props.filter (fun p => !gdf.columns.contains p) = [])
    (hgcol : gdf.columns.contains "geometry" = true) :
    validate_geojson_file f minF props true =
      if !(invalidGeomMessages gdf.geoms).isEmpty then
        if ((invalidGeomMessages gdf.geoms).length : ℚ) >
            (gdf.geoms.length : ℚ) * (1 / 10) then
          .error (.validationError ("Too many invalid geometries in " ++
            f.path ++ ": " ++ toString (invalidGeomMessages gdf.geoms).length ++
            "/" ++ toString gdf.geoms.length))
        else
          .ok (gdf, crsWarnings gdf f.path ++
            ["Some invalid geometries in " ++ f.path ++
              ": " ++ toString (invalidGeomMessages gdf.geoms).length ++
              "/" ++ toString gdf.geoms.length])
      else .ok (gdf, crsWarnings gdf f.path) := by
  have hnlt : ¬ (gdf.geoms.length < minF) := by omega
  unfold validate_geojson_file
  simp only [vfe_ok f 100 hp hs, hgeo, if_neg hnlt, hprops, List.isEmpty_nil,
    Bool.not_true, Bool.and_false, Bool.false_eq_true, if_false, Bool.true_and,
    hgcol, eq_self_iff_true, if_true]

/-- C7: for a GeoJSON file that passes the feature-count and
required-field checks (and is present, large enough and loadable), if the
number of empty-or-invalid geometries strictly exceeds 10 percent of the
feature count the validation returns success = false with the
too-many-invalid-geometries error; if it is nonzero but at most 10
percent, validation returns success = true with no errors and a warning
listing the invalid count. -/
theorem c7_geometry_threshold (f : PyFile) (gdf : GeoDataFrame) (minR : Nat)
    (req : List String)
    (hp : f.present = true) (hs : 100 ≤ f.size) (hgeo : f.geoLoad = some gdf)
    (hcount : minR ≤ gdf.geoms.length)
    (hprops : req.filter (fun p => !gdf.columns.contains p) = [])
    (hgcol : gdf.columns.contains "geometry" = true) :
    (10 * (invalidGeomMessages gdf.geoms).length > gdf.geoms.length →
      validate_data_file f "geojson" minR req =
        .ok (false,
          ["Too many invalid geometries in " ++ f.path ++ ": " ++
            toString (invalidGeomMessages gdf.geoms).length ++ "/" ++
            toString gdf.geoms.length], [])) ∧
    (invalidGeomMessages gdf.geoms ≠ [] →
      10 * (invalidGeomMessages gdf.geoms).length ≤ gdf.geoms.length →
      validate_data_file f "geojson" minR req =
        .ok (true, [],
          crsWarnings gdf f.path ++
            ["Some invalid geometries in " ++ f.path ++ ": " ++
              toString (invalidGeomMessages gdf.geoms).length ++ "/" ++
              toString gdf.geoms.length])) := by
  have heval := validate_geojson_eval f gdf minR req hp hs hgeo hcount hprops hgcol
  constructor
  · intro hgt
    have hne : invalidGeomMessages gdf.geoms ≠ [] := by
      intro h0
      rw [h0] at hgt
      simp at hgt
    have hbe : (invalidGeomMessages gdf.geoms).isEmpty = false := by
      cases hl : (invalidGeomMessages gdf.geoms).isEmpty
      · rfl
      · exact absurd (List.isEmpty_iff.mp hl) hne
    have hq : ((invalidGeomMessages gdf.geoms).length : ℚ) >
        (gdf.geoms.length : ℚ) * (1 / 10) := by
      rw [gt_iff_lt, mul_one_div, div_lt_iff₀ (show (0:ℚ) < 10 by norm_num)]
      exact_mod_cast
        (by omega :
          gdf.geoms.length < (invalidGeomMessages gdf.geoms).length * 10)
    unfold validate_data_file
    rw [runValidation_geojson]
    simp only [heval, hbe, Bool.not_false, if_true, if_pos hq]
    rfl
  · intro hne hle
    have hbe : (invalidGeomMessages gdf.geoms).isEmpty = false := by
      cases hl : (invalidGeomMessages gdf.geoms).isEmpty
      · rfl
      · exact absurd (List.isEmpty_iff.mp hl) hne
    have hq : ¬ (((invalidGeomMessages gdf.geoms).length : ℚ) >
        (gdf.geoms.length : ℚ) * (1 / 10)) := by
      have hle2 : ((invalidGeomMessages gdf.geoms).length : ℚ) ≤
          (gdf.geoms.length : ℚ) * (1 / 10) := by
        rw [mul_one_div, le_div_iff₀ (show (0:ℚ) < 10 by norm_num)]
        exact_mod_cast
          (by omega :
            (invalidGeomMessages gdf.geoms).length * 10 ≤ gdf.geoms.length)
      exact not_lt.mpr hle2
    unfold validate_data_file
    rw [runValidation_geojson]
    simp only [heval, hbe, Bool.not_false, if_true, if_neg hq]
    rfl

/-- A 20-feature frame with exactly 1 empty geometry (5 percent). -/
def gdfOneInvalid : GeoDataFrame :=
  { columns := ["name", "geometry"], crs := some "EPSG:4326",
    geoms := List.replicate 19 .validGeom ++ [.emptyGeom] }

/-- A 20-feature frame with 3 bad geometries (15 percent). -/
def gdfThreeInvalid : GeoDataFrame :=
  { columns := ["name", "geometry"], crs := some "EPSG:4326",
    geoms := List.replicate 17 .validGeom ++
      [.emptyGeom, .emptyGeom, .invalidGeom "Self-intersection at point"] }

/-- The 5-percent file on disk. -/
def parksFileWarn : PyFile :=
  { path := "parks.geojson", present := true, size := 4096, readOk := true,
    jsonParse := none, geoLoad := some gdfOneInvalid, csvLoad := none }

/-- The 15-percent file on disk. -/
def parksFileFail : PyFile :=
  { path := "parks.geojson", present := true, size := 4096, readOk := true,
    jsonParse := none, geoLoad := some gdfThreeInvalid, csvLoad := none }

/-- Witness for c7_geometry_threshold: the 20-feature file with 1 invalid
geometry succeeds with the warning, and with 3 invalid geometries fails
with the error. -/
theorem c7_geometry_threshold_witness :
    validate_data_file parksFileWarn "geojson" 1 ["name"] =
      .ok (true, [],
        crsWarnings gdfOneInvalid "parks.geojson" ++
          ["Some invalid geometries in parks.geojson: " ++
            toString (invalidGeomMessages gdfOneInvalid.geoms).length ++ "/" ++
            toString gdfOneInvalid.geoms.length]) ∧
    validate_data_file parksFileFail "geojson" 1 ["name"] =
      .ok (false,
        ["Too many invalid geometries in parks.geojson: " ++
          toString (invalidGeomMessages gdfThreeInvalid.geoms).length ++ "/" ++
          toString gdfThreeInvalid.geoms.length], []) :=
  ⟨(c7_geometry_threshold parksFileWarn gdfOneInvalid 1 ["name"] rfl
      (by decide) rfl (by decide) (by decide) (by decide)).2
      (by decide) (by decide),
   (c7_geometry_threshold parksFileFail gdfThreeInvalid 1 ["name"] rfl
      (by decide) rfl (by decide) (by decide) (by decide)).1 (by decide)⟩

/-! ## Run verdict (src/check_data_status.py)

check_data_status walks the DATA_FILES registry: a registered dataset is
either missing from disk or available, and an available one carries the
ValidationOutcome produced by validate_data_file.  The __main__ block then
derives the overall verdict (exit code) from the accumulated
validation_errors, validation_warnings and missing lists. -/

/-- One registry dataset as the status check sees it. -/
inductive DatasetRecord where
  | missingDs (name : String) (critical : Bool)
  | availableDs (name : String) (critical : Bool) (vSuccess : Bool)
      (vErrors : List String) (vWarnings : List String)

/-- item.get("name"). -/
def recordName : DatasetRecord → String
  | .missingDs n _ => n
  | .availableDs n _ _ _ _ => n

/-- The strings a dataset contributes to status["validation_errors"]: an
available dataset that failed validation contributes "name: error" per
error; a missing critical dataset contributes its MISSING line; nothing
otherwise. -/
def recordErrors : DatasetRecord → List String
  | .availableDs n _ s errs _ =>
    if s then [] else errs.map (fun e => n ++ ": " ++ e)
  | .missingDs n c =>
    if c then [n ++ ": MISSING (critical data source)"] else []

/-- The strings a dataset contributes to status["validation_warnings"]:
only a successfully validated available dataset with warnings
contributes, "name: warning" per warning (the elif branch). -/
def recordWarnings : DatasetRecord → List String
  | .availableDs n _ s _ warns =>
    if s && !warns.isEmpty then warns.map (fun w => n ++ ": " ++ w) else []
  | .missingDs _ _ => []

/-- status["validation_errors"] accumulated over the walk. -/
def statusErrors : List DatasetRecord → List String
  | [] => []
  | r :: rest => recordErrors r ++ statusErrors rest

/-- status["validation_warnings"] accumulated over the walk. -/
def statusWarnings : List DatasetRecord → List String
  | [] => []
  | r :: rest => recordWarnings r ++ statusWarnings rest

/-- Membership in status["missing"]. -/
def isMissingDs : DatasetRecord → Bool
  | .missingDs _ _ => true
  | .availableDs _ _ _ _ _ => false

/-- e.split(":")[0]: the part of the string before its first colon (the
whole string when it has none). -/
def beforeColon (s : String) : String :=
  String.mk (s.toList.takeWhile (fun c => c != ':'))

/-- The has_critical_errors expression of the __main__ block: an
available item with critical set whose validation_success is false or
whose name occurs among the error prefixes, or any critical missing
item. -/
def hasCriticalErrors (records : List DatasetRecord) : Bool :=
  records.any (fun r =>
    match r with
    | .availableDs n c s _ _ =>
      c && (!s || ((statusErrors records).map beforeColon).contains n)
    | .missingDs _ _ => false) ||
  records.any (fun r =>
    match r with
    | .missingDs _ c => c
    | .availableDs _ _ _ _ _ => false)

/-- has_any_errors: any accumulated validation error, or any missing
dataset. -/
def hasAnyErrors (records : List DatasetRecord) : Bool :=
  !(statusErrors records).isEmpty || !(records.filter isMissingDs).isEmpty

/-- The four exit outcomes of the status script: exit 1 (critical data
missing or invalid), exit 2 (some data missing or invalid), exit 0 with
warnings, exit 0 clean. -/
inductive RunVerdict where
  | criticalFailure
  | degraded
  | okWithWarnings
  | allValid
deriving Repr, DecidableEq

/-- The if/elif chain that picks the exit code in __main__. -/
def runVerdict (records : List DatasetRecord) : RunVerdict :=
  if hasCriticalErrors records then .criticalFailure
  else if hasAnyErrors records then .degraded
  else if !(statusWarnings records).isEmpty then .okWithWarnings
  else .allValid

/-- Modelled from the claim wording: a dataset with critical = true that
is missing or failed validation. -/
def specCriticalBad : DatasetRecord → Bool
  | .missingDs _ c => c
  | .availableDs _ c s _ _ => c && !s

/-- Modelled from the claim wording: a plain error or a missing dataset. -/
def specPlainBad : DatasetRecord → Bool
  | .missingDs _ _ => true
  | .availableDs _ _ s _ _ => !s

/-- Modelled from the claim wording: a dataset contributing to the
warnings bucket. -/
def specWarned : DatasetRecord → Bool
  | .availableDs _ _ s _ warns => s && !warns.isEmpty
  | .missingDs _ _ => false

/-- The verdict as the claim states it, as a pure function of the
per-dataset outcomes. -/
def specVerdict (records : List DatasetRecord) : RunVerdict :=
  if records.any specCriticalBad then .criticalFailure
  else if records.any specPlainBad then .degraded
  else if records.any specWarned then .okWithWarnings
  else .allValid

/-- A whole colon-free string survives the split prefix. -/
theorem takeWhile_no_colon : ∀ (l : List Char), ':' ∉ l →
    l.takeWhile (fun c => c != ':') = l := by
  intro l hl
  induction l with
  | nil => rfl
  | cons a t ih =>
    rw [List.takeWhile_cons]
    have ha : (a != ':') = true := by
      simp only [List.mem_cons] at hl
      push_neg at hl
      simp [bne_iff_ne]
      exact fun h => hl.1 h.symm
    rw [if_pos ha, ih (by
      simp only [List.mem_cons] at hl
      push_neg at hl
      exact hl.2)]

/-- beforeColon recovers the dataset name from "name: message" when the
name itself contains no colon. -/
theorem beforeColon_named (n e : String) (h : ':' ∉ n.toList) :
    beforeColon (n ++ ": " ++ e) = n := by
  unfold beforeColon
  have hdata : (n ++ ": " ++ e).toList = n.toList ++ ':' :: ' ' :: e.toList := by
    show ((n ++ ": ") ++ e).data = n.data ++ ':' :: ' ' :: e.data
    rw [String.data_append, String.data_append]
    simp [List.append_assoc]
  rw [hdata]
  rw [List.takeWhile_append]
  rw [takeWhile_no_colon n.toList h]
  simp only [if_pos rfl]
  rw [show (':' :: ' ' :: e.toList).takeWhile (fun c => c != ':') = [] from by
    rw [List.takeWhile_cons]
    simp]
  show String.mk (n.data ++ []) = n
  rw [List.append_nil]

/-- The names a dataset contributes to the error-prefix list: its own
name once per contributed error string. -/
def recordErrorNames : DatasetRecord → List String
  | .availableDs n _ s errs _ => if s then [] else errs.map (fun _ => n)
  | .missingDs n c => if c then [n] else []

/-- Fold of recordErrorNames over the walk. -/
def errorNames : List DatasetRecord → List String
  | [] => []
  | r :: rest => recordErrorNames r ++ errorNames rest

/-- With colon-free names, splitting each accumulated error string at its
first colon recovers exactly the contributing dataset names. -/
theorem statusErrors_prefixes (records : List DatasetRecord)
    (hcolon : ∀ r ∈ records, ':' ∉ (recordName r).toList) :
    (statusErrors records).map beforeColon = errorNames records := by
  induction records with
  | nil => rfl
  | cons r rest ih =>
    have hr := hcolon r (List.mem_cons_self r rest)
    have hrest : ∀ x ∈ rest, ':' ∉ (recordName x).toList :=
      fun x hx => hcolon x (List.mem_cons_of_mem r hx)
    show (recordErrors r ++ statusErrors rest).map beforeColon =
      recordErrorNames r ++ errorNames rest
    rw [List.map_append, ih hrest]
    congr 1
    cases r with
    | availableDs n c s errs warns =>
      simp only [recordErrors, recordErrorNames]
      by_cases hsx : s = true
      · rw [if_pos hsx, if_pos hsx]
        rfl
      · rw [if_neg hsx, if_neg hsx, List.map_map]
        exact List.map_congr_left
          (fun e _ => beforeColon_named n e hr)
    | missingDs n c =>
      simp only [recordErrors, recordErrorNames]
      by_cases hcx : c = true
      · rw [if_pos hcx, if_pos hcx]
        have h1 : beforeColon (n ++ ": MISSING (critical data source)") = n := by
          have h2 := beforeColon_named n "MISSING (critical data source)" hr
          rwa [show n ++ ": " ++ "MISSING (critical data source)" =
              n ++ ": MISSING (critical data source)" from by
            rw [String.append_assoc]
            rfl] at h2
        simp [h1]
      · rw [if_neg hcx, if_neg hcx]
        rfl

/-- Whether a dataset contributed at least one error string. -/
def contributesError : DatasetRecord → Bool
  | .availableDs _ _ s errs _ => !s && !errs.isEmpty
  | .missingDs _ c => c

/-- Membership in the name prefixes comes from a contributing record of
that name. -/
theorem mem_errorNames (records : List DatasetRecord) (n : String) :
    n ∈ errorNames records ↔
      ∃ r ∈ records, recordName r = n ∧ contributesError r = true := by
  induction records with
  | nil =>
    simp [errorNames]
  | cons r rest ih =>
    show n ∈ recordErrorNames r ++ errorNames rest ↔ _
    rw [List.mem_append, ih]
    constructor
    · rintro (hmem | ⟨x, hx, hnx, hcx⟩)
      · refine ⟨r, List.mem_cons_self r rest, ?_⟩
        cases r with
        | availableDs nm c s errs warns =>
          simp only [recordErrorNames] at hmem
          by_cases hsx : s = true
          · rw [if_pos hsx] at hmem
            cases hmem
          · rw [if_neg hsx] at hmem
            rw [List.mem_map] at hmem
            obtain ⟨e, he, hne⟩ := hmem
            subst hne
            refine ⟨rfl, ?_⟩
            simp only [contributesError]
            have herrs : errs ≠ [] := fun h0 => by
              subst h0
              cases he
            simp [hsx, List.isEmpty_eq_false.mpr herrs]
        | missingDs nm c =>
          simp only [recordErrorNames] at hmem
          by_cases hcx : c = true
          · rw [if_pos hcx] at hmem
            simp only [List.mem_singleton] at hmem
            subst hmem
            exact ⟨rfl, hcx⟩
          · rw [if_neg hcx] at hmem
            cases hmem
      · exact ⟨x, List.mem_cons_of_mem r hx, hnx, hcx⟩
    · rintro ⟨x, hx, hnx, hcx⟩
      rcases List.mem_cons.mp hx with hxr | hxrest
      · subst hxr
        left
        cases x with
        | availableDs nm c s errs warns =>
          simp only [contributesError, Bool.and_eq_true, Bool.not_eq_true'] at hcx
          obtain ⟨hsx, herrs⟩ := hcx
          simp only [recordErrorNames, hsx, Bool.false_eq_true, if_false]
          rw [List.mem_map]
          rw [List.isEmpty_eq_false] at herrs
          obtain ⟨e, he⟩ := List.exists_mem_of_ne_nil errs herrs
          exact ⟨e, he, hnx⟩
        | missingDs nm c =>
          simp only [contributesError] at hcx
          simp only [recordErrorNames, hcx, if_true]
          simpa using hnx.symm
      · exact Or.inr ⟨x, hxrest, hnx, hcx⟩

/-- The accumulated error list is nonempty exactly when some dataset
contributed. -/
theorem statusErrors_ne_nil_iff (records : List DatasetRecord) :
    statusErrors records ≠ [] ↔ ∃ r ∈ records, recordErrors r ≠ [] := by
  induction records with
  | nil => simp [statusErrors]
  | cons r rest ih =>
    show recordErrors r ++ statusErrors rest ≠ [] ↔ _
    constructor
    · intro h
      by_cases ha : recordErrors r = []
      · have hb : statusErrors rest ≠ [] := by
          intro hb
          exact h (by rw [ha, hb, List.append_nil])
        obtain ⟨x, hx, hgx⟩ := ih.mp hb
        exact ⟨x, List.mem_cons_of_mem r hx, hgx⟩
      · exact ⟨r, List.mem_cons_self r rest, ha⟩
    · rintro ⟨x, hx, hgx⟩ happ
      rw [List.append_eq_nil] at happ
      rcases List.mem_cons.mp hx with h1 | h2
      · exact hgx (h1 ▸ happ.1)
      · exact (ih.mpr ⟨x, h2, hgx⟩) happ.2

/-- The accumulated warning list is nonempty exactly when some dataset
contributed. -/
theorem statusWarnings_ne_nil_iff (records : List DatasetRecord) :
    statusWarnings records ≠ [] ↔ ∃ r ∈ records, recordWarnings r ≠ [] := by
  induction records with
  | nil => simp [statusWarnings]
  | cons r rest ih =>
    show recordWarnings r ++ statusWarnings rest ≠ [] ↔ _
    constructor
    · intro h
      by_cases ha : recordWarnings r = []
      · have hb : statusWarnings rest ≠ [] := by
          intro hb
          exact h (by rw [ha, hb, List.append_nil])
        obtain ⟨x, hx, hgx⟩ := ih.mp hb
        exact ⟨x, List.mem_cons_of_mem r hx, hgx⟩
      · exact ⟨r, List.mem_cons_self r rest, ha⟩
    · rintro ⟨x, hx, hgx⟩ happ
      rw [List.append_eq_nil] at happ
      rcases List.mem_cons.mp hx with h1 | h2
      · exact hgx (h1 ▸ happ.1)
      · exact (ih.mpr ⟨x, h2, hgx⟩) happ.2

/-- C9: for every set of per-dataset outcomes from the registry walk
(with the registry invariants that hold for DATA_FILES: dataset names are
distinct and contain no colon, and each available dataset carries a
ValidationOutcome whose success flag matches emptiness of its errors, as
validate_data_file guarantees), the script verdict is CRITICAL_FAILURE
exactly when some critical dataset is missing or failed validation;
otherwise DEGRADED when any dataset failed validation or any dataset is
missing; otherwise OK_WITH_WARNINGS when the warnings bucket is
non-empty; otherwise OK. -/
theorem c9_run_verdict (records : List DatasetRecord)
    (hnodup : (records.map recordName).Nodup)
    (hcolon : ∀ r ∈ records, ':' ∉ (recordName r).toList)
    (hinv : ∀ n c s errs warns,
      DatasetRecord.availableDs n c s errs warns ∈ records →
      (s = true ↔ errs = [])) :
    runVerdict records = specVerdict records := by
  have hpref : (statusErrors records).map beforeColon = errorNames records :=
    statusErrors_prefixes records hcolon
  have hcrit : hasCriticalErrors records = records.any specCriticalBad := by
    rw [Bool.eq_iff_iff]
    unfold hasCriticalErrors
    rw [Bool.or_eq_true, List.any_eq_true, List.any_eq_true, List.any_eq_true]
    constructor
    · rintro (⟨r, hr, hp⟩ | ⟨r, hr, hp⟩)
      · cases r with
        | availableDs n c s errs warns =>
          rw [Bool.and_eq_true, Bool.or_eq_true] at hp
          obtain ⟨hc, hrest⟩ := hp
          cases hsx : s with
          | false =>
            exact ⟨_, hr, by simp [specCriticalBad, hc, hsx]⟩
          | true =>
            rcases hrest with hns | hcont
            · rw [hsx] at hns
              simp at hns
            · rw [hpref] at hcont
              have hmem : n ∈ errorNames records := by
                simpa using hcont
              obtain ⟨r2, hr2, hname2, hcontrib⟩ :=
                (mem_errorNames records n).mp hmem
              have heq : r2 = DatasetRecord.availableDs n c s errs warns :=
                List.inj_on_of_nodup_map hnodup hr2 hr (by rw [hname2]; rfl)
              rw [heq] at hcontrib
              rw [hsx] at hcontrib
              simp [contributesError] at hcontrib
        | missingDs n c =>
          cases hp
      · cases r with
        | missingDs n c =>
          exact ⟨_, hr, hp⟩
        | availableDs n c s errs warns =>
          cases hp
    · rintro ⟨r, hr, hp⟩
      cases r with
      | missingDs n c =>
        exact Or.inr ⟨_, hr, hp⟩
      | availableDs n c s errs warns =>
        left
        refine ⟨_, hr, ?_⟩
        simp only [specCriticalBad, Bool.and_eq_true] at hp
        simp [hp.1, hp.2]
  have hany : hasAnyErrors records = records.any specPlainBad := by
    rw [Bool.eq_iff_iff]
    unfold hasAnyErrors
    rw [Bool.or_eq_true, List.any_eq_true]
    constructor
    · rintro (hse | hm)
      · rw [Bool.not_eq_true', List.isEmpty_eq_false] at hse
        obtain ⟨r, hr, hgr⟩ := (statusErrors_ne_nil_iff records).mp hse
        refine ⟨r, hr, ?_⟩
        cases r with
        | availableDs n c s errs warns =>
          simp only [recordErrors] at hgr
          by_cases hsx : s = true
          · rw [if_pos hsx] at hgr
            exact absurd rfl hgr
          · simp [specPlainBad, Bool.not_eq_true] at hsx ⊢
            exact hsx
        | missingDs n c =>
          simp [specPlainBad]
      · rw [Bool.not_eq_true', List.isEmpty_eq_false] at hm
        obtain ⟨r, hrmem⟩ := List.exists_mem_of_ne_nil _ hm
        obtain ⟨hr, hmiss⟩ := List.mem_filter.mp hrmem
        cases r with
        | missingDs n c => exact ⟨_, hr, by simp [specPlainBad]⟩
        | availableDs n c s errs warns => cases hmiss
    · rintro ⟨r, hr, hp⟩
      cases r with
      | missingDs n c =>
        right
        rw [Bool.not_eq_true', List.isEmpty_eq_false]
        exact List.ne_nil_of_mem (List.mem_filter.mpr ⟨hr, rfl⟩)
      | availableDs n c s errs warns =>
        left
        rw [Bool.not_eq_true', List.isEmpty_eq_false]
        apply (statusErrors_ne_nil_iff records).mpr
        refine ⟨_, hr, ?_⟩
        simp only [specPlainBad, Bool.not_eq_true'] at hp
        have herrs : errs ≠ [] := by
          intro h0
          have := (hinv n c s errs warns hr).mpr h0
          rw [this] at hp
          cases hp
        simp only [recordErrors, hp, Bool.false_eq_true, if_false]
        intro hmap
        exact herrs (List.map_eq_nil_iff.mp hmap)
  have hwarn : (!(statusWarnings records).isEmpty) = records.any specWarned := by
    rw [Bool.eq_iff_iff]
    rw [Bool.not_eq_true', List.isEmpty_eq_false, List.any_eq_true,
      statusWarnings_ne_nil_iff]
    constructor
    · rintro ⟨r, hr, hgr⟩
      refine ⟨r, hr, ?_⟩
      cases r with
      | availableDs n c s errs warns =>
        simp only [recordWarnings] at hgr
        by_cases hcond : (s && !warns.isEmpty) = true
        · exact hcond
        · rw [if_neg hcond] at hgr
          exact absurd rfl hgr
      | missingDs n c =>
        exact absurd rfl hgr
    · rintro ⟨r, hr, hp⟩
      refine ⟨r, hr, ?_⟩
      cases r with
      | availableDs n c s errs warns =>
        simp only [specWarned] at hp
        simp only [recordWarnings, hp, if_true]
        rw [Bool.and_eq_true, Bool.not_eq_true', List.isEmpty_eq_false] at hp
        intro hmap
        exact hp.2 (List.map_eq_nil_iff.mp hmap)
      | missingDs n c =>
        cases hp
  unfold runVerdict specVerdict
  rw [hcrit, hany, hwarn]

/-- Witness for c9_run_verdict: one critical dataset missing and two
available ones (one valid, one valid with a warning) give the same
verdict under the script logic and the claim wording; that verdict is
CRITICAL_FAILURE, driven by the one missing critical dataset. -/
theorem c9_run_verdict_witness :
    runVerdict
      [DatasetRecord.missingDs "williams_treaty_communities" true,
       DatasetRecord.availableDs "provincial_parks" true true [] [],
       DatasetRecord.availableDs "fire_perimeters" false true []
         ["GeoJSON has no CRS defined in fire.geojson"]] =
      specVerdict
        [DatasetRecord.missingDs "williams_treaty_communities" true,
         DatasetRecord.availableDs "provincial_parks" true true [] [],
         DatasetRecord.availableDs "fire_perimeters" false true []
           ["GeoJSON has no CRS defined in fire.geojson"]] ∧
    runVerdict
      [DatasetRecord.missingDs "williams_treaty_communities" true,
       DatasetRecord.availableDs "provincial_parks" true true [] [],
       DatasetRecord.availableDs "fire_perimeters" false true []
         ["GeoJSON has no CRS defined in fire.geojson"]] =
      RunVerdict.criticalFailure :=
  ⟨c9_run_verdict _ (by decide) (by decide)
    (by
      intro n c s errs warns hmem
      simp only [List.mem_cons, List.not_mem_nil, or_false] at hmem
      rcases hmem with h | h | h
      · cases h
      · injection h with h1 h2 h3 h4 h5
        subst h3
        subst h4
        simp
      · injection h with h1 h2 h3 h4 h5
        subst h3
        subst h4
        simp),
   by decide⟩
